import Mathlib

/-!
# FraudGuard-AI: shallow embedding of the fraud-detection pipeline

Shallow embedding of the scoring and decision pipeline of the
FraudGuard-AI backend (the `backend/app` variant, plus the
`backend/tools` response parser, the `backend/agents` risk-synthesizer
variant, and the escalation handler).  Python dictionaries are modelled
as structures carrying the fields the code reads (with the defaults the
code supplies through `dict.get`), floats as rationals, Python `int`
scores as integers, and every external collaborator (ML model, LLM,
verification service, storage, clock, randomness) as an explicit input.
-/

namespace FraudGuard

/-- Python `int(q)` on a float/rational: truncation toward zero. -/
def pyInt (q : ℚ) : ℤ :=
  if 0 ≤ q then ⌊q⌋ else -⌊-q⌋

/-- Prefix test: `substrAt needle hay` is true when `needle` is a prefix
of `hay` (character lists). -/
def substrAt : List Char → List Char → Bool
  | [], _ => true
  | _ :: _, [] => false
  | a :: as, b :: bs => a == b && substrAt as bs

/-- Containment: `containsSub needle hay` is true when `needle` occurs as
a contiguous run inside `hay`. -/
def containsSub (needle : List Char) : List Char → Bool
  | [] => substrAt needle []
  | b :: bs => substrAt needle (b :: bs) || containsSub needle bs

/-- Python `needle in hay` on strings: substring containment. -/
def strContains (hay needle : String) : Bool :=
  containsSub needle.toList hay.toList

namespace App

/-- Fields of the transaction dict read by `backend/app` code.  The code
reads them through `dict.get` with defaults, so the embedding carries the
already-defaulted values. -/
structure TransactionData where
  user_id : String
  transaction_amount : ℚ
  transaction_type : String
  merchant_category : String
  device_type : String
  location : String
  card_type : String
  authentication_method : String
  transaction_distance : ℚ
  transaction_id : String
deriving Repr, DecidableEq

/-- User behavioural baseline returned by `get_user_baseline` /
`get_user_profile` (external storage, passed in explicitly). -/
structure UserBaseline where
  avg_transaction_amount : ℚ
  known_devices : List String
  known_locations : List String
  fraud_history_count : ℤ
deriving Repr, DecidableEq

/-- The Suspicion Gate `utils.calculate_suspicious_flag`.  The Python
function fetches the
baseline from storage and the hour from the wall clock; both are explicit
arguments here.  Returns `(is_suspicious, reasons)`. -/
def calculate_suspicious_flag (transaction_data : TransactionData)
    (fraud_probability : ℚ) (user_baseline : UserBaseline)
    (hour : ℕ) : Bool × List String :=
  let amount := transaction_data.transaction_amount
  let avg_amount := user_baseline.avg_transaction_amount
  let r1 := if amount > avg_amount * 5 ∧ amount > 5000 then
    ["high_value_deviation"] else []
  let r2 := if fraud_probability > 3/5 then ["ml_high_risk"] else []
  let r3 := if transaction_data.device_type ∉ user_baseline.known_devices ∧
      amount > 3000 then ["new_device_high_amount"] else []
  let r4 := if 2 ≤ hour ∧ hour ≤ 6 ∧ amount > 2000 then
    ["unusual_hour"] else []
  let r5 := if transaction_data.transaction_distance > 500 ∧ amount > 3000 then
    ["geographic_anomaly"] else []
  let reasons := r1 ++ r2 ++ r3 ++ r4 ++ r5
  (decide (reasons.length > 0), reasons)

/-- Output dict of `agents/transaction_monitor.analyze_transaction`. -/
structure MonitorResult where
  fraud_probability : ℚ
  risk_score : ℤ
  llm_explanation : String
  recommendation : String
deriving Repr, DecidableEq

/-- Agent 1, `agents/transaction_monitor.analyze_transaction`.  The ML
probability
and the LLM explanation are collaborator outputs, passed in. -/
def analyze_transaction (fraud_probability : ℚ)
    (llm_explanation : String) : MonitorResult :=
  let risk_score := pyInt (fraud_probability * 100)
  let recommendation :=
    if risk_score ≥ 85 then "BLOCK"
    else if risk_score ≥ 60 then "REVIEW"
    else "APPROVE"
  { fraud_probability := fraud_probability, risk_score := risk_score,
    llm_explanation := llm_explanation, recommendation := recommendation }

/-- Output of the external SageMaker deepfake-detection endpoint, as read
by `agents/deepfake_detector.analyze_deepfake` through `dict.get` (absent
keys fall back to the defaults below). -/
structure DetectionResult where
  is_deepfake : Option Bool
  deepfake_confidence : Option ℚ
  face_match_score : Option ℚ
  code_validated : Option Bool
deriving Repr, DecidableEq

/-- Output dict of `agents/deepfake_detector.analyze_deepfake`. -/
structure DeepfakeResult where
  is_deepfake : Bool
  deepfake_confidence : ℚ
  face_match_score : ℚ
  code_validated : Bool
  verification_passed : Bool
  llm_explanation : String
deriving Repr, DecidableEq

/-- Agent 2, `agents/deepfake_detector.analyze_deepfake`: reads the endpoint output
with defaults and derives `verification_passed` (no deepfake AND face match
at least 0.80 AND code validated). -/
def analyze_deepfake (detection_result : DetectionResult)
    (llm_explanation : String) : DeepfakeResult :=
  let is_deepfake := detection_result.is_deepfake.getD false
  let deepfake_confidence := detection_result.deepfake_confidence.getD 0
  let face_match_score := detection_result.face_match_score.getD 0
  let code_validated := detection_result.code_validated.getD false
  let verification_passed :=
    !is_deepfake && decide (face_match_score ≥ 4/5) && code_validated
  { is_deepfake := is_deepfake, deepfake_confidence := deepfake_confidence,
    face_match_score := face_match_score, code_validated := code_validated,
    verification_passed := verification_passed,
    llm_explanation := llm_explanation }

/-- Output dict of `agents/evidence_collector.collect_evidence` (the
fields `assess_risk` and the escalation handler read). -/
structure Evidence where
  user_profile : UserBaseline
  detected_patterns : List String
  llm_summary : String
deriving Repr, DecidableEq

/-- Verification-related adjustments of `agents/risk_assessor.assess_risk`
(the `if deepfake_result:` block, an `if`/`elif`/`elif` chain). -/
def deepfakeAdjustments : Option DeepfakeResult → List (String × ℤ)
  | none => []
  | some d =>
    if d.is_deepfake then [("Deepfake detected", 40)]
    else if d.face_match_score < 4/5 then [("Low face match", 20)]
    else if !d.code_validated then [("Code validation failed", 15)]
    else []

/-- Evidence-pattern adjustments of `agents/risk_assessor.assess_risk`
(three independent `if` statements, Python `in` substring tests). -/
def evidenceAdjustments (patterns : List String) : List (String × ℤ) :=
  (if patterns.any (fun p => strContains p "higher than normal") then
    [("Amount anomaly", 15)] else []) ++
  (if patterns.any (fun p => strContains p "High velocity") then
    [("Velocity spike", 10)] else []) ++
  (if patterns.any (fun p => strContains p "New device") then
    [("New device", 10)] else [])

/-- The full `risk_adjustments` list built by `assess_risk`, in program
order: verification adjustments first, then evidence adjustments. -/
def riskAdjustments (deepfake_result : Option DeepfakeResult)
    (evidence : Evidence) : List (String × ℤ) :=
  deepfakeAdjustments deepfake_result ++
    evidenceAdjustments evidence.detected_patterns

/-- Composite score: `composite_risk_score = min(base_risk + adjustment_total, 100)`. -/
def compositeScore (base_risk : ℤ) (risk_adjustments : List (String × ℤ)) : ℤ :=
  min (base_risk + (risk_adjustments.map Prod.snd).sum) 100

/-- Status and confidence thresholds of `assess_risk` (Step 2). -/
def statusAndConfidence (composite_risk_score : ℤ) : String × String :=
  if composite_risk_score ≥ 85 then ("BLOCKED", "very_high")
  else if composite_risk_score ≥ 70 then ("REVIEW", "high")
  else if composite_risk_score ≥ 50 then ("REVIEW", "medium")
  else ("APPROVED", "low_risk")

/-- The risk-assessment dict returned by `assess_risk`.  `case_id` and
`alerts_sent` are absent (`none`) at creation; the orchestrator adds both
keys after escalation. -/
structure RiskAssessment where
  risk_score : ℤ
  base_risk : ℤ
  adjustments : List (String × ℤ)
  status : String
  confidence : String
  llm_reasoning : String
  case_id : Option String
  alerts_sent : Option (List (Option String))
deriving Repr, DecidableEq

/-- Agent 4, `agents/risk_assessor.assess_risk` (the composite-scoring variant used
by `app/orchestrator.py`).  The LLM reasoning text is a collaborator
output, passed in. -/
def assess_risk (monitor_result : MonitorResult)
    (deepfake_result : Option DeepfakeResult) (evidence : Evidence)
    (llm_reasoning : String) : RiskAssessment :=
  let base_risk := monitor_result.risk_score
  let risk_adjustments := riskAdjustments deepfake_result evidence
  let composite_risk_score := compositeScore base_risk risk_adjustments
  let sc := statusAndConfidence composite_risk_score
  { risk_score := composite_risk_score, base_risk := base_risk,
    adjustments := risk_adjustments, status := sc.1, confidence := sc.2,
    llm_reasoning := llm_reasoning, case_id := none, alerts_sent := none }

/-- External collaborator outputs consumed by
`agents/escalation_handler.handle_escalation`: wall-clock date stamp,
random 4-digit suffix, LLM-generated report, S3 path returned by
`save_evidence_package`, SNS message id, and the creation timestamp. -/
structure EscalationEnv where
  date_str : String
  rand_suffix : ℕ
  fraud_report : String
  evidence_s3_path : String
  sns_message_id : Option String
  now_iso : String
deriving Repr, DecidableEq

/-- Case identifier: the literal FA-, the date stamp, a dash, and a
random four-digit suffix. -/
def escalationCaseId (date_str : String) (rand_suffix : ℕ) : String :=
  "FA-" ++ date_str ++ "-" ++ toString rand_suffix

/-- The fraud-case record `handle_escalation` hands to `create_fraud_case`
(DynamoDB): an immutable audit record. -/
structure FraudCase where
  case_id : String
  transaction_id : String
  user_id : String
  risk_score : ℤ
  status : String
  amount : ℚ
  fraud_report : String
  evidence_s3_path : String
  created_at : String
deriving Repr, DecidableEq

/-- The dict returned by `handle_escalation` to the orchestrator. -/
structure EscalationResult where
  case_id : String
  fraud_report : String
  evidence_s3_path : String
  alerts_sent : List (Option String)
deriving Repr, DecidableEq

/-- The FraudCase record built in Step 4 of `handle_escalation`. -/
def handle_escalation_case (transaction_data : TransactionData)
    (risk_assessment : RiskAssessment) (e : EscalationEnv) : FraudCase :=
  { case_id := escalationCaseId e.date_str e.rand_suffix,
    transaction_id := transaction_data.transaction_id,
    user_id := transaction_data.user_id,
    risk_score := risk_assessment.risk_score,
    status := risk_assessment.status,
    amount := transaction_data.transaction_amount,
    fraud_report := e.fraud_report,
    evidence_s3_path := e.evidence_s3_path,
    created_at := e.now_iso }

/-- Agent 5, `agents/escalation_handler.handle_escalation`, return value (Step 5:
`alerts_sent` is the one-element list of the SNS message id). -/
def handle_escalation (e : EscalationEnv) : EscalationResult :=
  { case_id := escalationCaseId e.date_str e.rand_suffix,
    fraud_report := e.fraud_report,
    evidence_s3_path := e.evidence_s3_path,
    alerts_sent := [e.sns_message_id] }

/-- All collaborator outputs the orchestrated pipeline consumes, passed in
explicitly.  `detection_result` is `some _` exactly when `photo_data` and
`verification_code` were both supplied (the deepfake agent only runs
then). -/
structure OrchestratorEnv where
  transaction_data : TransactionData
  monitor_result : MonitorResult
  detection_result : Option DetectionResult
  deepfake_llm_explanation : String
  evidence : Evidence
  risk_llm_reasoning : String
  escalation_env : EscalationEnv
deriving Repr, DecidableEq

/-- Result of `orchestrate_transaction`, together with bookkeeping of
which downstream agents were invoked on this run and the fraud case (if
any) handed to storage by the escalation handler. -/
structure OrchestratorResult where
  status : String
  risk_score : ℤ
  reason : Option String
  deepfake_result : Option DeepfakeResult
  ran_evidence_collector : Bool
  ran_risk_assessor : Bool
  ran_escalation : Bool
  risk_assessment : Option RiskAssessment
  fraud_case : Option FraudCase
deriving Repr, DecidableEq

/-- The output of the deepfake agent as computed inside the orchestrator
(`analyze_deepfake` runs only when photo and code are present). -/
def pipelineDeepfake (env : OrchestratorEnv) : Option DeepfakeResult :=
  env.detection_result.map
    (fun d => analyze_deepfake d env.deepfake_llm_explanation)

/-- The risk assessment as created by Agent 4 inside the orchestrator,
before the escalation handler touches it. -/
def preAssessment (env : OrchestratorEnv) : RiskAssessment :=
  assess_risk env.monitor_result (pipelineDeepfake env) env.evidence
    env.risk_llm_reasoning

/-- Agents 3-5 of `orchestrate_transaction`: evidence collection, risk
assessment, and conditional escalation (risk score at least 70).  After
escalation the orchestrator mutates the assessment dict, adding the
`case_id` and `alerts_sent` keys. -/
def mainPipeline (env : OrchestratorEnv)
    (deepfake_result : Option DeepfakeResult) : OrchestratorResult :=
  let risk_assessment := assess_risk env.monitor_result deepfake_result
    env.evidence env.risk_llm_reasoning
  if risk_assessment.risk_score ≥ 70 then
    let escalation_result := handle_escalation env.escalation_env
    let fraud_case := handle_escalation_case env.transaction_data
      risk_assessment env.escalation_env
    let ra := { risk_assessment with
      case_id := some escalation_result.case_id,
      alerts_sent := some escalation_result.alerts_sent }
    { status := ra.status, risk_score := ra.risk_score, reason := none,
      deepfake_result := deepfake_result, ran_evidence_collector := true,
      ran_risk_assessor := true, ran_escalation := true,
      risk_assessment := some ra, fraud_case := some fraud_case }
  else
    { status := risk_assessment.status,
      risk_score := risk_assessment.risk_score, reason := none,
      deepfake_result := deepfake_result, ran_evidence_collector := true,
      ran_risk_assessor := true, ran_escalation := false,
      risk_assessment := some risk_assessment, fraud_case := none }

/-- The orchestrator `app/orchestrator.orchestrate_transaction`.  When the deepfake agent
ran and reported a deepfake or a failed verification, the pipeline
short-circuits to BLOCKED with score 100 before evidence collection. -/
def orchestrate_transaction (env : OrchestratorEnv) : OrchestratorResult :=
  match pipelineDeepfake env with
  | some d =>
    if d.is_deepfake || !d.verification_passed then
      { status := "BLOCKED", risk_score := 100,
        reason := some "Deepfake authentication detected",
        deepfake_result := some d, ran_evidence_collector := false,
        ran_risk_assessor := false, ran_escalation := false,
        risk_assessment := none, fraud_case := none }
    else mainPipeline env (some d)
  | none => mainPipeline env none

/-- The classifier adapter `services/fraud_model.predict_fraud_probability`.
The body past the
model-loaded guard sits in a `try`/`except` returning 0.5 on any
exception; the fallible feature-preparation / encoding / inference work is
modelled as an `Except` input. -/
def predict_fraud_probability (model_loaded : Bool)
    (run_prediction : Except String ℚ) : Except String ℚ :=
  if !model_loaded then
    Except.error "Model not loaded. Call load_fraud_model() first."
  else
    match run_prediction with
    | Except.ok p => Except.ok p
    | Except.error _ => Except.ok (1/2)

end App

namespace Tools

/-- Nearest-integer rounding with ties to even (Python 3 `round` with a
rational in place of the binary float). -/
def roundHalfEven (q : ℚ) : ℤ :=
  let f := ⌊q⌋
  let r := q - f
  if r < 1/2 then f
  else if 1/2 < r then f + 1
  else if f % 2 = 0 then f else f + 1

/-- Python `round(q, 2)`. -/
def pyRound2 (q : ℚ) : ℚ := (roundHalfEven (q * 100) : ℚ) / 100

/-- The `face_comparison` sub-dict of the verification-service response
(`match` is a Lean keyword, hence `match_`). -/
structure FaceComparison where
  match_ : Option Bool
  similarity : Option ℚ
  confidence : Option ℚ
deriving Repr, DecidableEq

/-- The `quality_metrics` sub-dict. -/
structure QualityMetrics where
  brightness : Option ℚ
  sharpness : Option ℚ
deriving Repr, DecidableEq

/-- One entry of the `emotions` list. -/
structure Emotion where
  emotion_type : Option String
  confidence : Option ℚ
deriving Repr, DecidableEq

/-- The `quality_check` sub-dict (`pose` is an opaque payload passed
through unchanged). -/
structure QualityCheck where
  is_real : Option Bool
  confidence : Option ℚ
  quality_score : Option ℚ
  quality_metrics : Option QualityMetrics
  pose : Option String
  emotions : Option (List Emotion)
deriving Repr, DecidableEq

/-- The `checks` sub-dict of `liveness_check`. -/
structure LivenessChecks where
  eyes_open : Option Bool
  no_sunglasses : Option Bool
deriving Repr, DecidableEq

/-- The `liveness_check` sub-dict. -/
structure LivenessCheck where
  is_live : Option Bool
  liveness_score : Option ℚ
  confidence : Option ℚ
  checks : Option LivenessChecks
deriving Repr, DecidableEq

/-- Raw verification-service response consumed by
`tools/deepfake_tools.parse_deepfake_result`; every field may be absent. -/
structure ApiResponse where
  verification_result : Option String
  face_comparison : Option FaceComparison
  quality_check : Option QualityCheck
  liveness_check : Option LivenessCheck
  reason : Option String
deriving Repr, DecidableEq

/-- The `face_match` block of the parsed result. -/
structure ParsedFaceMatch where
  matched : Bool
  similarity : ℚ
  confidence : ℚ
deriving Repr, DecidableEq

/-- The `deepfake_detection` block of the parsed result. -/
structure ParsedDeepfakeDetection where
  is_real : Bool
  confidence : ℚ
  quality_score : ℚ
deriving Repr, DecidableEq

/-- The `liveness_check` block of the parsed result. -/
structure ParsedLiveness where
  is_live : Bool
  score : ℚ
  confidence : ℚ
  checks_passed : Option LivenessChecks
deriving Repr, DecidableEq

/-- The `image_quality` block of the parsed result. -/
structure ParsedImageQuality where
  brightness : ℚ
  sharpness : ℚ
deriving Repr, DecidableEq

/-- The `biometrics` block of the parsed result. -/
structure ParsedBiometrics where
  pose : Option String
  top_emotion : String
  emotion_confidence : ℚ
deriving Repr, DecidableEq

/-- Structured verification analysis returned by
`parse_deepfake_result`. -/
structure ParsedDeepfakeResult where
  is_authentic : Bool
  verification_result : String
  overall_confidence : ℚ
  face_match : ParsedFaceMatch
  deepfake_detection : ParsedDeepfakeDetection
  liveness_check : ParsedLiveness
  image_quality : ParsedImageQuality
  biometrics : ParsedBiometrics
  risk_factors : List String
  raw_reason : String
deriving Repr, DecidableEq

/-- Empty-dict defaults used when a sub-dict is absent. -/
def emptyFaceComparison : FaceComparison :=
  { match_ := none, similarity := none, confidence := none }

/-- Empty-dict default for `quality_check`. -/
def emptyQualityCheck : QualityCheck :=
  { is_real := none, confidence := none, quality_score := none,
    quality_metrics := none, pose := none, emotions := none }

/-- Empty-dict default for `liveness_check`. -/
def emptyLivenessCheck : LivenessCheck :=
  { is_live := none, liveness_score := none, confidence := none,
    checks := none }

/-- The adapter `tools/deepfake_tools.parse_deepfake_result`: normalizes the raw
service response, deriving overall authenticity, the averaged (and
2-decimal-rounded) confidence, and the ordered risk-factor list. -/
def parse_deepfake_result (api_response : ApiResponse) : ParsedDeepfakeResult :=
  let verification_result := api_response.verification_result.getD "UNKNOWN"
  let face_comparison := api_response.face_comparison.getD emptyFaceComparison
  let quality_check := api_response.quality_check.getD emptyQualityCheck
  let liveness_check := api_response.liveness_check.getD emptyLivenessCheck
  let is_authentic :=
    (verification_result == "VERIFIED") &&
    face_comparison.match_.getD false &&
    quality_check.is_real.getD false &&
    liveness_check.is_live.getD false
  let confidences := [face_comparison.confidence.getD 0,
    quality_check.confidence.getD 0, liveness_check.confidence.getD 0]
  let overall_confidence :=
    if confidences.length ≠ 0 then
      pyRound2 (confidences.sum / (confidences.length : ℚ))
    else 0
  let checks := liveness_check.checks
  let emotions := quality_check.emotions.getD []
  let top_emotion := emotions.head?
  let risk_factors :=
    (if !(face_comparison.match_.getD false) then
      ["Face mismatch (similarity: " ++
        toString (face_comparison.similarity.getD 0) ++ "%)"] else []) ++
    (if !(quality_check.is_real.getD false) then
      ["Potential deepfake detected"] else []) ++
    (if !(liveness_check.is_live.getD false) then
      ["Liveness check failed"] else []) ++
    (if quality_check.quality_score.getD 100 < 70 then
      ["Low image quality (" ++
        toString (quality_check.quality_score.getD 0) ++ ")"] else []) ++
    (if !((checks.getD { eyes_open := none, no_sunglasses := none
      }).eyes_open.getD false) then ["Eyes not visible"] else []) ++
    (if (checks.getD { eyes_open := none, no_sunglasses := none
      }).no_sunglasses = some false then ["Sunglasses detected"] else [])
  let face_match : ParsedFaceMatch :=
    { matched := face_comparison.match_.getD false,
      similarity := face_comparison.similarity.getD 0,
      confidence := face_comparison.confidence.getD 0 }
  let deepfake_detection : ParsedDeepfakeDetection :=
    { is_real := quality_check.is_real.getD false,
      confidence := quality_check.confidence.getD 0,
      quality_score := quality_check.quality_score.getD 0 }
  let parsed_liveness : ParsedLiveness :=
    { is_live := liveness_check.is_live.getD false,
      score := liveness_check.liveness_score.getD 0,
      confidence := liveness_check.confidence.getD 0,
      checks_passed := checks }
  let metrics := quality_check.quality_metrics.getD
    { brightness := none, sharpness := none }
  let image_quality : ParsedImageQuality :=
    { brightness := metrics.brightness.getD 0,
      sharpness := metrics.sharpness.getD 0 }
  let biometrics : ParsedBiometrics :=
    { pose := quality_check.pose,
      top_emotion := (top_emotion.bind Emotion.emotion_type).getD "UNKNOWN",
      emotion_confidence := (top_emotion.bind Emotion.confidence).getD 0 }
  { is_authentic := is_authentic,
    verification_result := verification_result,
    overall_confidence := overall_confidence,
    face_match := face_match,
    deepfake_detection := deepfake_detection,
    liveness_check := parsed_liveness,
    image_quality := image_quality,
    biometrics := biometrics,
    risk_factors := risk_factors,
    raw_reason := api_response.reason.getD "" }

end Tools

namespace AgentsV

/-- Parsed JSON assessment of the Nova collaborator, as consumed by the
`backend/agents/risk_assessor.py` variant (the keys the fallback dict
carries; a successfully parsed payload supplies the same keys). -/
structure NovaAssessment where
  final_verdict : String
  confidence_score : ℤ
  risk_level : String
  risk_summary : String
  key_findings : List String
  decision_reasoning : String
  recommended_action : String
  agent : String
  timestamp : String
deriving Repr, DecidableEq

/-- The fixed fallback built on `json.JSONDecodeError` in
`backend/agents/risk_assessor.assess_risk` (before the metadata keys are
attached). -/
def fallbackAssessment (nova_response : String) : NovaAssessment :=
  { final_verdict := "REVIEW", confidence_score := 50,
    risk_level := "MEDIUM",
    risk_summary := "Unable to parse comprehensive assessment",
    key_findings := ["System error in risk assessment"],
    decision_reasoning := nova_response.take 500,
    recommended_action := "Manual review required",
    agent := "", timestamp := "" }

/-- The parse-and-fallback core of `backend/agents/risk_assessor.assess_risk`:
the Nova response is parsed as JSON; on failure the fixed REVIEW fallback
is used; either way the `agent` and `timestamp` metadata keys are then
set.  `parse_json` stands for `json.loads` (returning `none` exactly when
`json.JSONDecodeError` is raised); `now_iso` for `datetime.now()`. -/
def assess_risk_synthesis (parse_json : String → Option NovaAssessment)
    (nova_response : String) (now_iso : String) : NovaAssessment :=
  let assessment :=
    match parse_json nova_response with
    | some a => a
    | none => fallbackAssessment nova_response
  { assessment with agent := "risk_assessor", timestamp := now_iso }

end AgentsV

/-! ## Concrete pipeline inputs used by witnesses and counterexamples -/

/-- A well-formed transaction payload. -/
def sampleTransaction : App.TransactionData :=
  { user_id := "USER-001", transaction_amount := 9000,
    transaction_type := "Online", merchant_category := "Retail",
    device_type := "Mobile", location := "New York",
    card_type := "Credit", authentication_method := "Password",
    transaction_distance := 0, transaction_id := "TXN-001" }

/-- A user baseline with a 1000-unit average and one known device. -/
def sampleBaseline : App.UserBaseline :=
  { avg_transaction_amount := 1000, known_devices := ["Desktop"],
    known_locations := ["New York"], fraud_history_count := 0 }

/-- Escalation collaborator outputs for a fixed date, suffix and alert. -/
def sampleEscalationEnv : App.EscalationEnv :=
  { date_str := "20251012", rand_suffix := 4321,
    fraud_report := "formal fraud case report",
    evidence_s3_path := "evidence/FA-20251012-4321.json",
    sns_message_id := some "MSG-9",
    now_iso := "2025-10-12T00:00:00" }

/-- Detection-endpoint output reporting a deepfake. -/
def detDeepfake : App.DetectionResult :=
  { is_deepfake := some true, deepfake_confidence := some 1,
    face_match_score := some 1, code_validated := some true }

/-- Monitor output with a low score. -/
def monLow : App.MonitorResult :=
  { fraud_probability := 0, risk_score := 10,
    llm_explanation := "low risk", recommendation := "APPROVE" }

/-- Evidence with no detected patterns. -/
def evNone : App.Evidence :=
  { user_profile := sampleBaseline, detected_patterns := [],
    llm_summary := "summary" }

/-- Environment for a run where the deepfake agent reports a deepfake. -/
def envDeepfake : App.OrchestratorEnv :=
  { transaction_data := sampleTransaction,
    monitor_result := monLow,
    detection_result := some detDeepfake,
    deepfake_llm_explanation := "verification failed",
    evidence := evNone,
    risk_llm_reasoning := "reasoning",
    escalation_env := sampleEscalationEnv }

/-- Environment for Scenario D: base score 60, amount-anomaly and
new-device patterns, no biometric check. -/
def monSixty : App.MonitorResult :=
  { fraud_probability := 0, risk_score := 60,
    llm_explanation := "moderate risk", recommendation := "REVIEW" }

/-- Evidence carrying an amount-anomaly and a new-device pattern. -/
def evScenarioD : App.Evidence :=
  { user_profile := sampleBaseline,
    detected_patterns := ["Amount 9x higher than normal",
      "New device detected"],
    llm_summary := "summary" }

/-- Environment for Scenario D. -/
def envScenarioD : App.OrchestratorEnv :=
  { transaction_data := sampleTransaction,
    monitor_result := monSixty,
    detection_result := none,
    deepfake_llm_explanation := "",
    evidence := evScenarioD,
    risk_llm_reasoning := "reasoning",
    escalation_env := sampleEscalationEnv }

/-- Environment for a high-base-score run with no patterns and no photo,
used to observe what escalation adds to the assessment dict. -/
def monNinety : App.MonitorResult :=
  { fraud_probability := 1, risk_score := 90,
    llm_explanation := "high risk", recommendation := "BLOCK" }

/-- Environment for a high-base-score run. -/
def envEscalated : App.OrchestratorEnv :=
  { transaction_data := sampleTransaction,
    monitor_result := monNinety,
    detection_result := none,
    deepfake_llm_explanation := "",
    evidence := evNone,
    risk_llm_reasoning := "reasoning",
    escalation_env := sampleEscalationEnv }

/-- The assessment `envEscalated` actually ends with: escalation added
both the `case_id` and the `alerts_sent` keys. -/
def postEscalated : App.RiskAssessment :=
  { App.preAssessment envEscalated with
    case_id := some "FA-20251012-4321",
    alerts_sent := some [some "MSG-9"] }

/-- Deepfake-agent output where the deepfake flag, the low face match and
the failed code validation all hold at once. -/
def dfAllFail : App.DeepfakeResult :=
  { is_deepfake := true, deepfake_confidence := 1, face_match_score := 0,
    code_validated := false, verification_passed := false,
    llm_explanation := "" }

/-- Evidence with no detected patterns. -/
def evEmpty : App.Evidence :=
  { user_profile := sampleBaseline, detected_patterns := [],
    llm_summary := "" }

/-- A transaction whose only possible gate trigger is the unusual-hour
rule (amount 2500, known device, zero distance). -/
def txnHourOnly : App.TransactionData :=
  { user_id := "USER-002", transaction_amount := 2500,
    transaction_type := "Online", merchant_category := "Retail",
    device_type := "Desktop", location := "New York",
    card_type := "Credit", authentication_method := "Password",
    transaction_distance := 0, transaction_id := "TXN-002" }

/-- Service response passing every check, with sub-check confidences
1, 1 and 0 (mean 2/3, which does not survive 2-decimal rounding). -/
def fcThirds : Tools.FaceComparison :=
  { match_ := some true, similarity := some 95, confidence := some 1 }

/-- Quality-check sub-dict: real, confidence 1, quality score 90. -/
def qcThirds : Tools.QualityCheck :=
  { is_real := some true, confidence := some 1, quality_score := some 90,
    quality_metrics := none, pose := none, emotions := none }

/-- Liveness sub-dict: live, confidence 0. -/
def lcThirds : Tools.LivenessCheck :=
  { is_live := some true, liveness_score := some 1, confidence := some 0,
    checks := none }

/-- Service response passing every check, sub-check confidences 1, 1, 0. -/
def respThirds : Tools.ApiResponse :=
  { verification_result := some "VERIFIED",
    face_comparison := some fcThirds,
    quality_check := some qcThirds,
    liveness_check := some lcThirds,
    reason := none }

/-! ## Theorems -/

/-- C1: for every transaction processed with a photo and verification
code, if the biometric check reports a deepfake or a failed verification,
`orchestrate_transaction` returns terminal status BLOCKED with risk score
exactly 100 and neither evidence collection, risk synthesis, nor
escalation runs — a hard override regardless of the evidence. -/
theorem C1_biometric_short_circuit (env : App.OrchestratorEnv)
    (d : App.DetectionResult)
    (hdet : env.detection_result = some d)
    (hfail :
      (App.analyze_deepfake d env.deepfake_llm_explanation).is_deepfake = true ∨
      (App.analyze_deepfake d env.deepfake_llm_explanation).verification_passed
        = false) :
    (App.orchestrate_transaction env).status = "BLOCKED" ∧
    (App.orchestrate_transaction env).risk_score = 100 ∧
    (App.orchestrate_transaction env).ran_evidence_collector = false ∧
    (App.orchestrate_transaction env).ran_risk_assessor = false ∧
    (App.orchestrate_transaction env).ran_escalation = false ∧
    (App.orchestrate_transaction env).risk_assessment = none ∧
    (App.orchestrate_transaction env).fraud_case = none := by
  have hp : App.pipelineDeepfake env =
      some (App.analyze_deepfake d env.deepfake_llm_explanation) := by
    simp [App.pipelineDeepfake, hdet]
  have hcond :
      ((App.analyze_deepfake d env.deepfake_llm_explanation).is_deepfake ||
        !(App.analyze_deepfake d env.deepfake_llm_explanation).verification_passed)
        = true := by
    rcases hfail with h | h <;> simp [h]
  simp [App.orchestrate_transaction, hp, hcond]

/-- Witness for C1: a run whose detection endpoint reports a deepfake is
blocked with score 100. -/
theorem C1_biometric_short_circuit_witness :
    envDeepfake.detection_result = some detDeepfake ∧
    (App.orchestrate_transaction envDeepfake).status = "BLOCKED" ∧
    (App.orchestrate_transaction envDeepfake).risk_score = 100 ∧
    (App.orchestrate_transaction envDeepfake).ran_escalation = false :=
  ⟨rfl,
    (C1_biometric_short_circuit envDeepfake detDeepfake rfl (Or.inl rfl)).1,
    (C1_biometric_short_circuit envDeepfake detDeepfake rfl (Or.inl rfl)).2.1,
    (C1_biometric_short_circuit envDeepfake detDeepfake rfl
      (Or.inl rfl)).2.2.2.2.1⟩

/-- C2: for every base score in [0,100] and every adjustment list with
non-negative deltas, the composite score is the base plus the adjustment
sum capped at 100, and always lies in [0,100]; base 90 with +40, +20, +15
yields exactly 100, not 165. -/
theorem C2_composite_score_clamped (base : ℤ) (adjs : List (String × ℤ))
    (hb0 : 0 ≤ base) (hb1 : base ≤ 100)
    (hnn : ∀ a ∈ adjs, 0 ≤ a.2) :
    App.compositeScore base adjs
      = min (base + (adjs.map Prod.snd).sum) 100 ∧
    (base + (adjs.map Prod.snd).sum ≤ 100 →
      App.compositeScore base adjs = base + (adjs.map Prod.snd).sum) ∧
    0 ≤ App.compositeScore base adjs ∧
    App.compositeScore base adjs ≤ 100 ∧
    App.compositeScore 90 [("Deepfake detected", 40), ("Low face match", 20),
      ("Code validation failed", 15)] = 100 := by
  have hsum : 0 ≤ (adjs.map Prod.snd).sum := by
    refine List.sum_nonneg ?_
    intro x hx
    obtain ⟨a, ha, rfl⟩ := List.mem_map.1 hx
    exact hnn a ha
  refine ⟨rfl, ?_, ?_, ?_, ?_⟩
  · intro hle
    exact min_eq_left hle
  · exact le_min (by linarith) (by norm_num)
  · exact min_le_right _ _
  · norm_num [App.compositeScore, min_def]

/-- Witness for C2 at base 90 with the three verification deltas. -/
theorem C2_composite_score_clamped_witness :
    (0 : ℤ) ≤ 90 ∧
    App.compositeScore 90 [("Deepfake detected", 40), ("Low face match", 20),
      ("Code validation failed", 15)] = 100 :=
  ⟨by decide,
    (C2_composite_score_clamped 90
      [("Deepfake detected", 40), ("Low face match", 20),
        ("Code validation failed", 15)]
      (by decide) (by decide) (by decide)).2.2.2.2⟩

/-- C3 counterexample: a deepfake-agent output for which the deepfake
flag, the below-threshold face match and the failed code validation all
hold simultaneously yields only the +40 adjustment; the +20 and +15
verification adjustments are not applied, so the conditions of the
adjustment table are not evaluated independently. -/
theorem C3_counterexample :
    dfAllFail.is_deepfake = true ∧
    dfAllFail.face_match_score < 4/5 ∧
    dfAllFail.code_validated = false ∧
    App.riskAdjustments (some dfAllFail) evEmpty
      = [("Deepfake detected", 40)] ∧
    ("Low face match", (20 : ℤ)) ∉
      App.riskAdjustments (some dfAllFail) evEmpty ∧
    ("Code validation failed", (15 : ℤ)) ∉
      App.riskAdjustments (some dfAllFail) evEmpty := by
  refine ⟨rfl, by norm_num [dfAllFail], rfl, ?_, ?_, ?_⟩ <;>
    simp [App.riskAdjustments, App.deepfakeAdjustments,
      App.evidenceAdjustments, dfAllFail, evEmpty]

/-- C3 amended: each evidence condition contributes its delta
independently, but the three verification conditions form a priority
chain — deepfake detected (+40), else face match below 0.80 (+20), else
code validation failed (+15) — so at most one verification adjustment is
ever applied. -/
theorem C3_adjustment_table (d : App.DeepfakeResult) (ev : App.Evidence) :
    (("Deepfake detected", (40 : ℤ)) ∈ App.riskAdjustments (some d) ev ↔
      d.is_deepfake = true) ∧
    (("Low face match", (20 : ℤ)) ∈ App.riskAdjustments (some d) ev ↔
      (d.is_deepfake = false ∧ d.face_match_score < 4/5)) ∧
    (("Code validation failed", (15 : ℤ)) ∈ App.riskAdjustments (some d) ev ↔
      (d.is_deepfake = false ∧ ¬ d.face_match_score < 4/5 ∧
        d.code_validated = false)) ∧
    (("Amount anomaly", (15 : ℤ)) ∈ App.riskAdjustments (some d) ev ↔
      ev.detected_patterns.any
        (fun p => strContains p "higher than normal") = true) ∧
    (("Velocity spike", (10 : ℤ)) ∈ App.riskAdjustments (some d) ev ↔
      ev.detected_patterns.any
        (fun p => strContains p "High velocity") = true) ∧
    (("New device", (10 : ℤ)) ∈ App.riskAdjustments (some d) ev ↔
      ev.detected_patterns.any
        (fun p => strContains p "New device") = true) ∧
    (App.deepfakeAdjustments (some d)).length ≤ 1 := by
  cases hd : d.is_deepfake <;>
    by_cases hf : d.face_match_score < 4/5 <;>
      cases hc : d.code_validated <;>
        cases ha : ev.detected_patterns.any
          (fun p => strContains p "higher than normal") <;>
          cases hv : ev.detected_patterns.any
            (fun p => strContains p "High velocity") <;>
            cases hn : ev.detected_patterns.any
              (fun p => strContains p "New device") <;>
    simp [App.riskAdjustments, App.deepfakeAdjustments,
      App.evidenceAdjustments, hd, hf, hc, ha, hv, hn]

/-- An `if`-guarded singleton is a sublist of that singleton. -/
theorem ite_singleton_sublist {α : Type} (c : Prop) [Decidable c] (x : α) :
    List.Sublist (if c then [x] else []) [x] := by
  by_cases h : c
  · simp [h]
  · simp [h]

/-- Five `if`-guarded singletons, appended, form a sublist of the
five-element list in that order. -/
theorem sublist_five {α : Type} (c1 c2 c3 c4 c5 : Prop)
    [Decidable c1] [Decidable c2] [Decidable c3] [Decidable c4]
    [Decidable c5] (a b c d e : α) :
    List.Sublist ((if c1 then [a] else []) ++ (if c2 then [b] else []) ++
      (if c3 then [c] else []) ++ (if c4 then [d] else []) ++
      (if c5 then [e] else [])) [a, b, c, d, e] := by
  have h := List.Sublist.append (List.Sublist.append (List.Sublist.append
    (List.Sublist.append (ite_singleton_sublist c1 a)
      (ite_singleton_sublist c2 b)) (ite_singleton_sublist c3 c))
    (ite_singleton_sublist c4 d)) (ite_singleton_sublist c5 e)
  simpa using h

/-- C4: the Suspicion Gate fires exactly when one of the five rules
holds, and the reason codes appear in the fixed rule order (the reason
list is a sublist of the full ordered code list, with each code present
exactly when its rule fires). -/
theorem C4_suspicion_gate (t : App.TransactionData) (p : ℚ)
    (b : App.UserBaseline) (hour : ℕ) :
    ((App.calculate_suspicious_flag t p b hour).1 = true ↔
      ((t.transaction_amount > b.avg_transaction_amount * 5 ∧
          t.transaction_amount > 5000) ∨
        p > 3/5 ∨
        (t.device_type ∉ b.known_devices ∧ t.transaction_amount > 3000) ∨
        (2 ≤ hour ∧ hour ≤ 6 ∧ t.transaction_amount > 2000) ∨
        (t.transaction_distance > 500 ∧ t.transaction_amount > 3000))) ∧
    List.Sublist (App.calculate_suspicious_flag t p b hour).2
      ["high_value_deviation", "ml_high_risk", "new_device_high_amount",
        "unusual_hour", "geographic_anomaly"] ∧
    ("high_value_deviation" ∈ (App.calculate_suspicious_flag t p b hour).2 ↔
      (t.transaction_amount > b.avg_transaction_amount * 5 ∧
        t.transaction_amount > 5000)) ∧
    ("ml_high_risk" ∈ (App.calculate_suspicious_flag t p b hour).2 ↔
      p > 3/5) ∧
    ("new_device_high_amount" ∈ (App.calculate_suspicious_flag t p b hour).2 ↔
      (t.device_type ∉ b.known_devices ∧ t.transaction_amount > 3000)) ∧
    ("unusual_hour" ∈ (App.calculate_suspicious_flag t p b hour).2 ↔
      (2 ≤ hour ∧ hour ≤ 6 ∧ t.transaction_amount > 2000)) ∧
    ("geographic_anomaly" ∈ (App.calculate_suspicious_flag t p b hour).2 ↔
      (t.transaction_distance > 500 ∧ t.transaction_amount > 3000)) := by
  refine ⟨?_, ?_, ?_, ?_, ?_, ?_, ?_⟩
  case refine_2 =>
    dsimp only [App.calculate_suspicious_flag]
    exact sublist_five _ _ _ _ _ _ _ _ _ _
  all_goals
    by_cases h1 : t.transaction_amount > b.avg_transaction_amount * 5 ∧
      t.transaction_amount > 5000 <;>
    by_cases h2 : p > 3/5 <;>
    by_cases h3 : t.device_type ∉ b.known_devices ∧
      t.transaction_amount > 3000 <;>
    by_cases h4 : 2 ≤ hour ∧ hour ≤ 6 ∧ t.transaction_amount > 2000 <;>
    by_cases h5 : t.transaction_distance > 500 ∧
      t.transaction_amount > 3000 <;>
    simp [App.calculate_suspicious_flag, h1, h2, h3, h4, h5]

/-- C5: with base score 60, an amount-anomaly (+15) and a new-device
(+10) pattern, and no biometric check, the composite score is exactly 85,
the status is BLOCKED, the escalation handler runs (85 ≥ 70), and the
FraudCase it creates carries the same case identifier that is attached to
the risk assessment. -/
theorem C5_scenario_d (env : App.OrchestratorEnv)
    (hdet : env.detection_result = none)
    (hbase : env.monitor_result.risk_score = 60)
    (hamt : env.evidence.detected_patterns.any
      (fun p => strContains p "higher than normal") = true)
    (hvel : env.evidence.detected_patterns.any
      (fun p => strContains p "High velocity") = false)
    (hdev : env.evidence.detected_patterns.any
      (fun p => strContains p "New device") = true) :
    (App.orchestrate_transaction env).risk_score = 85 ∧
    (App.orchestrate_transaction env).status = "BLOCKED" ∧
    (App.orchestrate_transaction env).ran_escalation = true ∧
    (App.orchestrate_transaction env).risk_assessment.bind
        App.RiskAssessment.case_id
      = some (App.escalationCaseId env.escalation_env.date_str
          env.escalation_env.rand_suffix) ∧
    (App.orchestrate_transaction env).fraud_case.map App.FraudCase.case_id
      = some (App.escalationCaseId env.escalation_env.date_str
          env.escalation_env.rand_suffix) := by
  have hp : App.pipelineDeepfake env = none := by
    simp [App.pipelineDeepfake, hdet]
  have hadj : App.riskAdjustments none env.evidence
      = [("Amount anomaly", 15), ("New device", 10)] := by
    simp [App.riskAdjustments, App.deepfakeAdjustments,
      App.evidenceAdjustments, hamt, hvel, hdev]
  have hra : App.assess_risk env.monitor_result none env.evidence
      env.risk_llm_reasoning
      = { risk_score := 85, base_risk := 60,
          adjustments := [("Amount anomaly", 15), ("New device", 10)],
          status := "BLOCKED", confidence := "very_high",
          llm_reasoning := env.risk_llm_reasoning,
          case_id := none, alerts_sent := none } := by
    simp only [App.assess_risk, hadj, hbase]
    norm_num [App.compositeScore, App.statusAndConfidence, min_def]
  simp [App.orchestrate_transaction, hp, App.mainPipeline, hra,
    App.handle_escalation, App.handle_escalation_case]

/-- Witness for C5 on the Scenario D environment. -/
theorem C5_scenario_d_witness :
    envScenarioD.detection_result = none ∧
    (App.orchestrate_transaction envScenarioD).risk_score = 85 ∧
    (App.orchestrate_transaction envScenarioD).status = "BLOCKED" ∧
    (App.orchestrate_transaction envScenarioD).ran_escalation = true :=
  ⟨rfl,
    (C5_scenario_d envScenarioD rfl rfl (by decide) (by decide)
      (by decide)).1,
    (C5_scenario_d envScenarioD rfl rfl (by decide) (by decide)
      (by decide)).2.1,
    (C5_scenario_d envScenarioD rfl rfl (by decide) (by decide)
      (by decide)).2.2.1⟩

/-- Reading an optional boolean with default `false` yields `true`
exactly when the field is present and `true`. -/
theorem getD_false_eq_true (o : Option Bool) :
    o.getD false = true ↔ o = some true := by
  cases o <;> simp

/-- C6 counterexample: on a response passing every check with sub-check
confidences 1, 1 and 0, the parsed overall confidence is 0.67 — the
2-decimal rounding applied by the code — and not the arithmetic mean 2/3,
so the claimed exact-mean equation fails. -/
theorem C6_counterexample :
    (Tools.parse_deepfake_result respThirds).overall_confidence = 67/100 ∧
    (Tools.parse_deepfake_result respThirds).overall_confidence
      ≠ (1 + 1 + 0 : ℚ) / 3 ∧
    (Tools.parse_deepfake_result respThirds).is_authentic = true := by
  have h : (Tools.parse_deepfake_result respThirds).overall_confidence
      = 67/100 := by
    simp only [Tools.parse_deepfake_result, respThirds, fcThirds, qcThirds,
      lcThirds]
    norm_num [Tools.pyRound2, Tools.roundHalfEven]
  refine ⟨h, ?_, rfl⟩
  rw [h]
  norm_num

/-- C6 amended: overall authenticity holds exactly when the overall
status is VERIFIED and the face-match, is-real and liveness sub-checks
all passed (an absent sub-field counting as failed), and the overall
confidence is the arithmetic mean of the three sub-check confidences
(missing or zero counting as 0) rounded to two decimal places. -/
theorem C6_parse_normalization (r : Tools.ApiResponse) :
    ((Tools.parse_deepfake_result r).is_authentic = true ↔
      (r.verification_result = some "VERIFIED" ∧
        (r.face_comparison.getD Tools.emptyFaceComparison).match_
          = some true ∧
        (r.quality_check.getD Tools.emptyQualityCheck).is_real
          = some true ∧
        (r.liveness_check.getD Tools.emptyLivenessCheck).is_live
          = some true)) ∧
    (Tools.parse_deepfake_result r).overall_confidence
      = Tools.pyRound2
        ((((r.face_comparison.getD Tools.emptyFaceComparison).confidence.getD 0)
          + ((r.quality_check.getD Tools.emptyQualityCheck).confidence.getD 0)
          + ((r.liveness_check.getD Tools.emptyLivenessCheck).confidence.getD 0))
          / 3) := by
  constructor
  · simp only [Tools.parse_deepfake_result]
    cases hv : r.verification_result with
    | none => simp [hv]
    | some v =>
      by_cases hveq : v = "VERIFIED"
      · subst hveq
        simp [hv, getD_false_eq_true, and_assoc]
      · simp [hv, hveq]
  · simp only [Tools.parse_deepfake_result, List.sum_cons, List.sum_nil,
      List.length_cons, List.length_nil]
    norm_num [add_assoc]

/-- C7: whenever the response of the text-generation collaborator cannot be
parsed as JSON, the Risk Synthesizer returns (rather than raising) the
fixed fallback assessment: verdict REVIEW with placeholder confidence 50
and generic explanatory text. -/
theorem C7_parse_fallback
    (parse_json : String → Option AgentsV.NovaAssessment)
    (nova_response now_iso : String)
    (h : parse_json nova_response = none) :
    AgentsV.assess_risk_synthesis parse_json nova_response now_iso
      = { AgentsV.fallbackAssessment nova_response with
          agent := "risk_assessor", timestamp := now_iso } ∧
    (AgentsV.assess_risk_synthesis parse_json nova_response
      now_iso).final_verdict = "REVIEW" ∧
    (AgentsV.assess_risk_synthesis parse_json nova_response
      now_iso).confidence_score = 50 ∧
    (AgentsV.assess_risk_synthesis parse_json nova_response
      now_iso).risk_summary = "Unable to parse comprehensive assessment" := by
  refine ⟨?_, ?_, ?_, ?_⟩ <;>
    simp [AgentsV.assess_risk_synthesis, h, AgentsV.fallbackAssessment]

/-- Witness for C7 on a non-JSON response with a parser that rejects
everything. -/
theorem C7_parse_fallback_witness :
    ((fun _ : String => (none : Option AgentsV.NovaAssessment))
      "model returned plain prose" = none) ∧
    (AgentsV.assess_risk_synthesis (fun _ => none)
      "model returned plain prose" "2025-10-12T00:00:00").final_verdict
      = "REVIEW" :=
  ⟨rfl,
    (C7_parse_fallback (fun _ => none) "model returned plain prose"
      "2025-10-12T00:00:00" rfl).2.1⟩

/-- C8 counterexample: two invocations of `calculate_suspicious_flag`
with identical transaction data, probability and baseline, one at hour 3
and one at hour 12, return different results — the gate also reads the
wall clock, so it is not a function of those three inputs alone. -/
theorem C8_counterexample :
    App.calculate_suspicious_flag txnHourOnly 0 sampleBaseline 3
      ≠ App.calculate_suspicious_flag txnHourOnly 0 sampleBaseline 12 ∧
    App.calculate_suspicious_flag txnHourOnly 0 sampleBaseline 3
      = (true, ["unusual_hour"]) ∧
    App.calculate_suspicious_flag txnHourOnly 0 sampleBaseline 12
      = (false, []) := by
  have h3 : App.calculate_suspicious_flag txnHourOnly 0 sampleBaseline 3
      = (true, ["unusual_hour"]) := by
    norm_num [App.calculate_suspicious_flag, txnHourOnly, sampleBaseline]
  have h12 : App.calculate_suspicious_flag txnHourOnly 0 sampleBaseline 12
      = (false, []) := by
    norm_num [App.calculate_suspicious_flag, txnHourOnly, sampleBaseline]
  refine ⟨?_, h3, h12⟩
  rw [h3, h12]
  simp

/-- C8 amended: the Suspicion Gate is a pure function of the transaction
amount, device type and distance, the classifier probability, the user
baseline, and the wall-clock hour; in particular it ignores the user
identity and every other transaction field, and modifies no state. -/
theorem C8_gate_deterministic (t : App.TransactionData) (p : ℚ)
    (b : App.UserBaseline) (hour : ℕ)
    (uid ty mc loc ct am tid : String) :
    App.calculate_suspicious_flag
      { t with
        user_id := uid,
        transaction_type := ty,
        merchant_category := mc,
        location := loc,
        card_type := ct,
        authentication_method := am,
        transaction_id := tid } p b hour
      = App.calculate_suspicious_flag t p b hour := rfl

/-- C9 counterexample: on a concrete escalated run the final risk
assessment differs from the output of the Risk Synthesizer in more than the
case identifier — the orchestrator also adds the `alerts_sent` field —
so the case identifier is not the only field mutated after creation. -/
theorem C9_counterexample :
    (App.orchestrate_transaction envEscalated).risk_assessment
      = some postEscalated ∧
    (App.orchestrate_transaction envEscalated).risk_assessment
      ≠ some { App.preAssessment envEscalated with
               case_id := postEscalated.case_id } ∧
    (App.preAssessment envEscalated).alerts_sent = none ∧
    postEscalated.alerts_sent = some [some "MSG-9"] := by
  refine ⟨?_, ?_, rfl, rfl⟩ <;> decide

/-- When the deepfake agent did not run, the orchestrator is the main
pipeline on `none`. -/
theorem orchestrate_none (env : App.OrchestratorEnv)
    (hdf : App.pipelineDeepfake env = none) :
    App.orchestrate_transaction env = App.mainPipeline env none := by
  unfold App.orchestrate_transaction
  rw [hdf]

/-- When the deepfake agent ran and passed, the orchestrator is the main
pipeline on its output. -/
theorem orchestrate_some_ok (env : App.OrchestratorEnv)
    (d : App.DeepfakeResult) (hdf : App.pipelineDeepfake env = some d)
    (hok : (d.is_deepfake || !d.verification_passed) = false) :
    App.orchestrate_transaction env = App.mainPipeline env (some d) := by
  unfold App.orchestrate_transaction
  rw [hdf]
  simp [hok]

/-- When the deepfake agent ran and failed, the short-circuit result
carries no risk assessment. -/
theorem orchestrate_blocked (env : App.OrchestratorEnv)
    (d : App.DeepfakeResult) (hdf : App.pipelineDeepfake env = some d)
    (hb : (d.is_deepfake || !d.verification_passed) = true) :
    (App.orchestrate_transaction env).risk_assessment = none := by
  unfold App.orchestrate_transaction
  rw [hdf]
  simp [hb]

/-- Frame property of the main pipeline: the final assessment agrees with
the output of the synthesizer except possibly in `case_id` and `alerts_sent`,
and is unchanged when escalation does not run. -/
theorem mainPipeline_frame (env : App.OrchestratorEnv)
    (df : Option App.DeepfakeResult) (ra : App.RiskAssessment)
    (hpre : App.assess_risk env.monitor_result df env.evidence
      env.risk_llm_reasoning = App.preAssessment env)
    (h : (App.mainPipeline env df).risk_assessment = some ra) :
    ra.risk_score = (App.preAssessment env).risk_score ∧
    ra.base_risk = (App.preAssessment env).base_risk ∧
    ra.adjustments = (App.preAssessment env).adjustments ∧
    ra.status = (App.preAssessment env).status ∧
    ra.confidence = (App.preAssessment env).confidence ∧
    ra.llm_reasoning = (App.preAssessment env).llm_reasoning ∧
    ra = { App.preAssessment env with
           case_id := ra.case_id, alerts_sent := ra.alerts_sent } ∧
    ((App.mainPipeline env df).ran_escalation = false →
      ra = App.preAssessment env) := by
  unfold App.mainPipeline at h ⊢
  rw [hpre] at h ⊢
  by_cases hth : (App.preAssessment env).risk_score ≥ 70
  · simp only [if_pos hth] at h ⊢
    simp only [Option.some.injEq] at h
    subst h
    refine ⟨rfl, rfl, rfl, rfl, rfl, rfl, rfl, by simp⟩
  · simp only [if_neg hth] at h ⊢
    simp only [Option.some.injEq] at h
    subst h
    refine ⟨rfl, rfl, rfl, rfl, rfl, rfl, rfl, fun _ => rfl⟩

/-- C9 amended: the final risk assessment agrees with the Risk
Synthesizer output on every originally-created field (score, base,
adjustments, status, confidence, reasoning); the escalation step is the
only mutator and it adds exactly the case-identifier and alerts-sent
fields; when escalation does not run the assessment is returned
unchanged. -/
theorem C9_escalation_frame (env : App.OrchestratorEnv)
    (ra : App.RiskAssessment)
    (h : (App.orchestrate_transaction env).risk_assessment = some ra) :
    ra.risk_score = (App.preAssessment env).risk_score ∧
    ra.base_risk = (App.preAssessment env).base_risk ∧
    ra.adjustments = (App.preAssessment env).adjustments ∧
    ra.status = (App.preAssessment env).status ∧
    ra.confidence = (App.preAssessment env).confidence ∧
    ra.llm_reasoning = (App.preAssessment env).llm_reasoning ∧
    ra = { App.preAssessment env with
           case_id := ra.case_id, alerts_sent := ra.alerts_sent } ∧
    ((App.orchestrate_transaction env).ran_escalation = false →
      ra = App.preAssessment env) := by
  cases hdf : App.pipelineDeepfake env with
  | none =>
    rw [orchestrate_none env hdf] at h ⊢
    exact mainPipeline_frame env none ra
      (by unfold App.preAssessment; rw [hdf]) h
  | some d =>
    by_cases hblock : (d.is_deepfake || !d.verification_passed) = true
    · rw [orchestrate_blocked env d hdf hblock] at h
      exact absurd h (by simp)
    · rw [Bool.not_eq_true] at hblock
      rw [orchestrate_some_ok env d hdf hblock] at h ⊢
      exact mainPipeline_frame env (some d) ra
        (by unfold App.preAssessment; rw [hdf]) h

/-- Witness for C9 amended on the escalated run. -/
theorem C9_escalation_frame_witness :
    (App.orchestrate_transaction envEscalated).risk_assessment
      = some postEscalated ∧
    postEscalated.status = (App.preAssessment envEscalated).status :=
  ⟨by decide,
    (C9_escalation_frame envEscalated postEscalated (by decide)).2.2.2.1⟩

/-- C10: any exception inside feature preparation, encoding or model
inference makes `predict_fraud_probability` return the fixed fallback
probability 0.5 instead of raising; 0.5 maps to base risk score 50, which
lands in the REVIEW band of the status thresholds. -/
theorem C10_prediction_fallback (msg expl : String) :
    App.predict_fraud_probability true (Except.error msg)
      = Except.ok (1/2) ∧
    (App.analyze_transaction (1/2) expl).risk_score = 50 ∧
    (App.statusAndConfidence 50).1 = "REVIEW" := by
  refine ⟨rfl, ?_, by norm_num [App.statusAndConfidence]⟩
  norm_num [App.analyze_transaction, pyInt]

end FraudGuard
